import Mathlib

/-!
Shallow embedding of the order-validation and sequencing core of the
`binance_bot` repository (files `src/validator.py`, `src/config.py`,
`src/market_orders.py`, `src/limit_orders.py`, `src/advanced/twap.py`,
`src/advanced/grid_strategy.py`).

Quantities and prices are modelled as exact rationals (`ℚ`).  The Python
code rounds with `Decimal(str(x)).quantize(Decimal(str(step)), ROUND_DOWN)`:
`quantize` rounds its argument to the *decimal exponent* of the second
operand, truncating toward zero.  We therefore carry the step/tick size as
a decimal literal `DecLit` (mantissa and number of fractional digits, the
exponent `Decimal(str(step))` carries), and model the rounding as
truncation on the grid `10^{-exp}`.
-/

namespace BinanceBot

/-- A decimal literal `mant / 10 ^ exp`, as produced by `Decimal(str(x))`
for a float `x` (e.g. `0.25` is `⟨25, 2⟩`, `1.0` is `⟨10, 1⟩`). -/
structure DecLit where
  mant : ℤ
  exp : ℕ
deriving DecidableEq, Repr

/-- Rational value of a decimal literal. -/
def DecLit.val (d : DecLit) : ℚ := (d.mant : ℚ) / 10 ^ d.exp

/-- Truncation toward zero, the meaning of `ROUND_DOWN` in Python's
`decimal` module. -/
def truncTowardZero (x : ℚ) : ℤ := if 0 ≤ x then ⌊x⌋ else ⌈x⌉

/-- `Decimal.quantize(..., ROUND_DOWN)` at decimal exponent `-e`:
truncate `q` toward zero on the grid `10^{-e}`. -/
def quantizeDown (q : ℚ) (e : ℕ) : ℚ := (truncTowardZero (q * 10 ^ e) : ℚ) / 10 ^ e

/-- The `LOT_SIZE` filter of a symbol (`minQty`, `maxQty`, `stepSize`),
as read in `OrderValidator.validate_quantity`. -/
structure LotSize where
  minQty : ℚ
  maxQty : ℚ
  stepSize : DecLit
deriving DecidableEq, Repr

/-- The `PRICE_FILTER` of a symbol (`minPrice`, `maxPrice`, `tickSize`),
as read in `OrderValidator.validate_price`. -/
structure PriceFilter where
  minPrice : ℚ
  maxPrice : ℚ
  tickSize : DecLit
deriving DecidableEq, Repr

/-- Failure cases of `validate_quantity` / `validate_price`: the value is
below the filter minimum or above the filter maximum. -/
inductive BoundError where
  | belowMin
  | aboveMax
deriving DecidableEq, Repr

/-- `OrderValidator.validate_quantity` (src/validator.py lines 122-163).
`lot = none` models a symbol with no `LOT_SIZE` filter entry, in which
case the code defaults `min_qty = 0`, `max_qty = float('inf')`,
`step_size = 0`.  On failure the code returns `(False, msg, 0)`; on
success `(True, "", rounded)`, rounding only when `step_size > 0`. -/
def validate_quantity (lot : Option LotSize) (quantity : ℚ) : Except BoundError ℚ :=
  let min_qty : ℚ := match lot with | some l => l.minQty | none => 0
  if quantity < min_qty then
    .error .belowMin
  else if (match lot with | some l => decide (l.maxQty < quantity) | none => false) then
    .error .aboveMax
  else
    match lot with
    | some l =>
      if 0 < l.stepSize.val then .ok (quantizeDown quantity l.stepSize.exp)
      else .ok quantity
    | none => .ok quantity

/-- `OrderValidator.validate_price` (src/validator.py lines 166-207):
same bounds-then-round logic against `minPrice / maxPrice / tickSize`. -/
def validate_price (pf : Option PriceFilter) (price : ℚ) : Except BoundError ℚ :=
  let min_price : ℚ := match pf with | some f => f.minPrice | none => 0
  if price < min_price then
    .error .belowMin
  else if (match pf with | some f => decide (f.maxPrice < price) | none => false) then
    .error .aboveMax
  else
    match pf with
    | some f =>
      if 0 < f.tickSize.val then .ok (quantizeDown price f.tickSize.exp)
      else .ok price
    | none => .ok price

/-- `Config.MAX_ORDER_VALUE_USD` (src/config.py line 35). -/
def MAX_ORDER_VALUE_USD : ℚ := 10000

/-- `Config.MIN_ORDER_VALUE_USD` (src/config.py line 36). -/
def MIN_ORDER_VALUE_USD : ℚ := 10

/-- Failure cases of `validate_notional`, in the order the code tests
them: exchange minimum notional, configured safety ceiling, configured
safety floor. -/
inductive NotionalError where
  | belowExchangeMin
  | aboveSafetyCeiling
  | belowSafetyFloor
deriving DecidableEq, Repr

/-- `OrderValidator.validate_notional` (src/validator.py lines 210-246).
`min_notional` is the `notional` field of the `MIN_NOTIONAL` filter
(default `0` when absent). -/
def validate_notional (min_notional : ℚ) (quantity price : ℚ) : Except NotionalError Unit :=
  let notional := quantity * price
  if notional < min_notional then
    .error .belowExchangeMin
  else if MAX_ORDER_VALUE_USD < notional then
    .error .aboveSafetyCeiling
  else if notional < MIN_ORDER_VALUE_USD then
    .error .belowSafetyFloor
  else
    .ok ()

/-- `GridTradingStrategy.calculate_grid_levels` (grid_strategy.py lines
40-57): `levels = [lower + i * (upper - lower) / num for i in range(num + 1)]`. -/
def calculate_grid_levels (lower_price upper_price : ℚ) (num_grids : ℕ) : List ℚ :=
  let price_range := upper_price - lower_price
  let grid_step := price_range / (num_grids : ℚ)
  (List.range (num_grids + 1)).map (fun (i : ℕ) => lower_price + (i : ℚ) * grid_step)

/-- The parameter computation of `TWAPExecutor.execute_twap` (twap.py lines
65-75): `slice_quantity = total_quantity / num_intervals`, validated and
rounded by `validate_quantity`, then `actual_total = slice_quantity *
num_intervals`.  Both the actual and the requested totals are carried in
the summary the code prints (line 90), so both are fields here. -/
structure TwapPlan where
  slice_quantity : ℚ
  actual_total : ℚ
  requested_total : ℚ
  num_intervals : ℕ
deriving DecidableEq, Repr

/-- TWAP slice-size computation (twap.py lines 65-75): returns `none` when
slice validation fails (the code logs and returns `[]`). -/
def execute_twap_plan (lot : Option LotSize) (total_quantity : ℚ)
    (num_intervals : ℕ) : Option TwapPlan :=
  let slice_quantity := total_quantity / (num_intervals : ℚ)
  match validate_quantity lot slice_quantity with
  | .error _ => none
  | .ok slice' =>
    some { slice_quantity := slice'
           actual_total := slice' * (num_intervals : ℚ)
           requested_total := total_quantity
           num_intervals := num_intervals }

/-- A simulated (dry-run) order record, the dict built in the dry-run
branches of the submitters. -/
structure OrderRecord where
  orderId : ℕ
  symbol : String
  side : String
  type : String
  origQty : ℚ
  price : Option ℚ
  avgPrice : Option ℚ
  status : String
  timeInForce : Option String
deriving DecidableEq, Repr

/-- A live order-entry request, the keyword arguments passed to
`client.futures_create_order`. -/
structure OrderRequest where
  symbol : String
  side : String
  type : String
  quantity : ℚ
  price : Option ℚ
  timeInForce : Option String
deriving DecidableEq, Repr

/-- Outcome of one submission path: in dry-run mode a synthesized record
(no order-entry network call); in live mode an order-entry request to the
exchange. -/
inductive Submission where
  | simulated (rec : OrderRecord)
  | orderEntry (req : OrderRequest)
deriving DecidableEq, Repr

/-- Whether a submission issues an order-entry network call. -/
def Submission.isOrderEntry : Submission → Bool
  | .simulated _ => false
  | .orderEntry _ => true

/-- Side of a submission: the `side` field of the simulated record, or of
the live request. -/
def Submission.side : Submission → String
  | .simulated r => r.side
  | .orderEntry q => q.side

/-- Price of a submission: the `price` field of the simulated record, or
of the live request. -/
def Submission.priceOf : Submission → Option ℚ
  | .simulated r => r.price
  | .orderEntry q => q.price

/-- Quantity of a submission. -/
def Submission.qty : Submission → ℚ
  | .simulated r => r.origQty
  | .orderEntry q => q.quantity

/-- `MarketOrderExecutor.place_order`, submission part (market_orders.py
lines 79-101): dry-run synthesizes `{orderId: 9999999, type: MARKET,
status: FILLED, avgPrice: current_price}`; live forwards a MARKET
order-entry request. -/
def market_submit (dry_run : Bool) (symbol side : String)
    (quantity current_price : ℚ) : Submission :=
  if dry_run then
    .simulated { orderId := 9999999, symbol := symbol, side := side, type := "MARKET"
                 origQty := quantity, price := none, avgPrice := some current_price
                 status := "FILLED", timeInForce := none }
  else
    .orderEntry { symbol := symbol, side := side, type := "MARKET"
                  quantity := quantity, price := none, timeInForce := none }

/-- `LimitOrderExecutor.place_order`, submission part (limit_orders.py
lines 93-118): dry-run synthesizes `{orderId: 9999999, type: LIMIT,
status: NEW}`; live forwards a LIMIT order-entry request. -/
def limit_submit (dry_run : Bool) (symbol side : String)
    (quantity price : ℚ) (time_in_force : String) : Submission :=
  if dry_run then
    .simulated { orderId := 9999999, symbol := symbol, side := side, type := "LIMIT"
                 origQty := quantity, price := some price, avgPrice := none
                 status := "NEW", timeInForce := some time_in_force }
  else
    .orderEntry { symbol := symbol, side := side, type := "LIMIT"
                  quantity := quantity, price := some price
                  timeInForce := some time_in_force }

/-- One TWAP slice submission (twap.py lines 142-174): dry-run synthesizes
`{orderId: 9999000 + slice_num, status: FILLED}`; live forwards a
LIMIT-IOC or MARKET order-entry request depending on `limit_price`. -/
def twap_slice_submit (dry_run : Bool) (symbol side : String)
    (limit_price : Option ℚ) (slice_quantity current_price : ℚ)
    (slice_num : ℕ) : Submission :=
  if dry_run then
    .simulated { orderId := 9999000 + slice_num, symbol := symbol, side := side
                 type := match limit_price with | some _ => "LIMIT" | none => "MARKET"
                 origQty := slice_quantity, price := none
                 avgPrice := some current_price, status := "FILLED", timeInForce := none }
  else
    match limit_price with
    | some p =>
      .orderEntry { symbol := symbol, side := side, type := "LIMIT"
                    quantity := slice_quantity, price := some p
                    timeInForce := some "IOC" }
    | none =>
      .orderEntry { symbol := symbol, side := side, type := "MARKET"
                    quantity := slice_quantity, price := none, timeInForce := none }

/-- The skip test of `GridTradingStrategy.setup_grid` (grid_strategy.py
line 163): `abs(level - current_price) / current_price < 0.001`. -/
def is_skipped (level current_price : ℚ) : Bool :=
  |level - current_price| / current_price < 1 / 1000

/-- The display classification of a grid level (grid_strategy.py line
141): BUY below the current price, SELL above it, CURRENT at it. -/
def grid_classify (level current_price : ℚ) : String :=
  if level < current_price then "BUY"
  else if current_price < level then "SELL"
  else "CURRENT"

/-- One grid-level submission (grid_strategy.py lines 167-194): side is
BUY below the current price else SELL; dry-run synthesizes `{orderId:
8888000 + i, type: LIMIT, status: NEW}`; live forwards a LIMIT-GTC
order-entry request. -/
def grid_level_submit (dry_run : Bool) (symbol : String) (i : ℕ)
    (level current_price quantity_per_grid : ℚ) : Submission :=
  let side := if level < current_price then "BUY" else "SELL"
  if dry_run then
    .simulated { orderId := 8888000 + i, symbol := symbol, side := side, type := "LIMIT"
                 origQty := quantity_per_grid, price := some level, avgPrice := none
                 status := "NEW", timeInForce := none }
  else
    .orderEntry { symbol := symbol, side := side, type := "LIMIT"
                  quantity := quantity_per_grid, price := some level
                  timeInForce := some "GTC" }

/-- The order-placement loop of `setup_grid` (grid_strategy.py lines
161-196): `for i, level in enumerate(self.grid_levels, 1)`, skipping
levels within 0.1% of the current price and submitting one order per
remaining level. -/
def setup_grid_orders_aux (dry_run : Bool) (symbol : String)
    (current_price quantity_per_grid : ℚ) : ℕ → List ℚ → List Submission
  | _, [] => []
  | i, level :: rest =>
    if is_skipped level current_price then
      setup_grid_orders_aux dry_run symbol current_price quantity_per_grid (i + 1) rest
    else
      grid_level_submit dry_run symbol i level current_price quantity_per_grid
        :: setup_grid_orders_aux dry_run symbol current_price quantity_per_grid (i + 1) rest

/-- Orders placed by `setup_grid` over its grid levels, indexed from 1 as
in the Python `enumerate(self.grid_levels, 1)`. -/
def setup_grid_orders (dry_run : Bool) (symbol : String) (levels : List ℚ)
    (current_price quantity_per_grid : ℚ) : List Submission :=
  setup_grid_orders_aux dry_run symbol current_price quantity_per_grid 1 levels

/-- The mutable state of `GridTradingStrategy` (grid_strategy.py lines
25-38). -/
structure GridState where
  grid_levels : List ℚ
  active_orders : List OrderRecord
  filled_orders : List OrderRecord
  total_profit : ℚ
deriving DecidableEq, Repr

/-- `GridTradingStrategy.__init__` (grid_strategy.py lines 25-38). -/
def grid_init : GridState :=
  { grid_levels := [], active_orders := [], filled_orders := [], total_profit := 0 }

/-- State effect of `setup_grid` (grid_strategy.py lines 103 and 196):
stores the computed grid levels and appends each placed order to
`active_orders`. -/
def setup_grid_state (s : GridState) (lower_price upper_price : ℚ)
    (num_grids : ℕ) (placed : List OrderRecord) : GridState :=
  { s with grid_levels := calculate_grid_levels lower_price upper_price num_grids
           active_orders := s.active_orders ++ placed }

/-- State effect of one filled order in `monitor_grid` (grid_strategy.py
lines 274-303, with `_place_replacement_order` line 359): the order moves
from `active_orders` to `filled_orders`; in live mode a replacement order
may be appended to `active_orders`. -/
def monitor_fill (s : GridState) (order order_status : OrderRecord)
    (replacement : Option OrderRecord) : GridState :=
  { s with active_orders := s.active_orders.erase order ++ replacement.toList
           filled_orders := s.filled_orders ++ [order_status] }

/-- The state-mutating operations of the grid strategy. -/
inductive GridOp where
  | setup (lower_price upper_price : ℚ) (num_grids : ℕ) (placed : List OrderRecord)
  | fill (order order_status : OrderRecord) (replacement : Option OrderRecord)

/-- One state transition of the grid strategy. -/
def grid_step (s : GridState) : GridOp → GridState
  | .setup lo up n placed => setup_grid_state s lo up n placed
  | .fill o st rep => monitor_fill s o st rep

/-- A whole run of the grid strategy: any sequence of setup and fill
operations applied to the freshly constructed state. -/
def grid_run (ops : List GridOp) : GridState := ops.foldl grid_step grid_init

/-- The profit figure printed by the periodic status update
(grid_strategy.py line 315). -/
def monitor_status_profit (s : GridState) : ℚ := s.total_profit

/-- The profit figure printed by `_display_final_stats` (grid_strategy.py
line 384). -/
def final_stats_profit (s : GridState) : ℚ := s.total_profit

/-- Modelled from the spec: `round_down(x, step)` as the spec's words use
it — "rounds down to the nearest multiple of `stepSize`" — i.e. the
greatest multiple of `step` not exceeding `x`.  Kept separate from the
code-derived `quantizeDown` so the two can be compared. -/
def roundDownToMultiple (x step : ℚ) : ℚ := step * (⌊x / step⌋ : ℚ)

/-- `x` is an exact integer multiple of `step`. -/
def isStepMultiple (x step : ℚ) : Prop := ∃ k : ℤ, x = (k : ℚ) * step

/-- Order ID of a simulated submission (none for a live request, whose ID
the exchange assigns). -/
def Submission.orderId? : Submission → Option ℕ
  | .simulated r => some r.orderId
  | .orderEntry _ => none

/-- Status of a simulated submission. -/
def Submission.statusOf : Submission → Option String
  | .simulated r => some r.status
  | .orderEntry _ => none

/-! ## Helper lemmas -/

theorem quantizeDown_le {q : ℚ} (e : ℕ) (hq : 0 ≤ q) : quantizeDown q e ≤ q := by
  unfold quantizeDown truncTowardZero
  have h10 : (0 : ℚ) < 10 ^ e := by positivity
  rw [if_pos (by positivity : (0 : ℚ) ≤ q * 10 ^ e), div_le_iff₀ h10]
  exact Int.floor_le _

theorem quantizeDown_isStepMultiple (q : ℚ) (e : ℕ) :
    isStepMultiple (quantizeDown q e) (1 / 10 ^ e) :=
  ⟨truncTowardZero (q * 10 ^ e), by unfold quantizeDown; rw [div_eq_mul_one_div]⟩

theorem le_quantizeDown_of_stepMultiple {m q : ℚ} {e : ℕ}
    (hm : isStepMultiple m (1 / 10 ^ e)) (hmq : m ≤ q) (hq : 0 ≤ q) :
    m ≤ quantizeDown q e := by
  obtain ⟨k, hk⟩ := hm
  have h10 : (0 : ℚ) < 10 ^ e := by positivity
  unfold quantizeDown truncTowardZero
  rw [if_pos (by positivity : (0 : ℚ) ≤ q * 10 ^ e), le_div_iff₀ h10]
  have hm10 : m * 10 ^ e = (k : ℚ) := by rw [hk]; field_simp
  rw [hm10]
  have hkq : (k : ℚ) ≤ q * 10 ^ e := by
    rw [← hm10]
    exact mul_le_mul_of_nonneg_right hmq (le_of_lt h10)
  exact_mod_cast Int.le_floor.mpr hkq

theorem validate_quantity_ok (l : LotSize) (q : ℚ)
    (hlo : l.minQty ≤ q) (hhi : q ≤ l.maxQty) (hstep : 0 < l.stepSize.val) :
    validate_quantity (some l) q = .ok (quantizeDown q l.stepSize.exp) := by
  simp [validate_quantity, not_lt.mpr hlo, not_lt.mpr hhi, hstep]

theorem grid_step_profit (s : GridState) (op : GridOp) :
    (grid_step s op).total_profit = s.total_profit := by
  cases op <;> rfl

theorem grid_foldl_profit (ops : List GridOp) (s : GridState) :
    (ops.foldl grid_step s).total_profit = s.total_profit := by
  induction ops generalizing s with
  | nil => rfl
  | cons op rest ih => rw [List.foldl_cons, ih, grid_step_profit]

theorem setup_grid_orders_aux_length (dry : Bool) (symbol : String)
    (current qpg : ℚ) (i : ℕ) (levels : List ℚ) :
    (setup_grid_orders_aux dry symbol current qpg i levels).length =
      (levels.filter (fun l => !is_skipped l current)).length := by
  induction levels generalizing i with
  | nil => rfl
  | cons a rest ih =>
    unfold setup_grid_orders_aux
    by_cases h : is_skipped a current
    · simp [h, ih]
    · simp [h, ih]

theorem level_eq_current_skipped (current : ℚ) : is_skipped current current = true := by
  simp [is_skipped]

theorem setup_grid_orders_aux_mem (dry : Bool) (symbol : String)
    (current qpg : ℚ) (i : ℕ) (levels : List ℚ) (s : Submission)
    (hs : s ∈ setup_grid_orders_aux dry symbol current qpg i levels) :
    ∃ level ∈ levels, ∃ j : ℕ, is_skipped level current = false ∧
      s = grid_level_submit dry symbol j level current qpg := by
  induction levels generalizing i with
  | nil => simp [setup_grid_orders_aux] at hs
  | cons a rest ih =>
    unfold setup_grid_orders_aux at hs
    by_cases h : is_skipped a current
    · rw [if_pos h] at hs
      obtain ⟨level, hmem, j, hsk, heq⟩ := ih (i + 1) hs
      exact ⟨level, List.mem_cons_of_mem _ hmem, j, hsk, heq⟩
    · rw [if_neg h] at hs
      rcases List.mem_cons.mp hs with heq | hrest
      · exact ⟨a, List.mem_cons_self _ _, i, Bool.eq_false_iff.mpr h, heq⟩
      · obtain ⟨level, hmem, j, hsk, heq⟩ := ih (i + 1) hrest
        exact ⟨level, List.mem_cons_of_mem _ hmem, j, hsk, heq⟩

theorem grid_level_submit_fields (dry : Bool) (symbol : String) (j : ℕ)
    (level current qpg : ℚ) :
    (grid_level_submit dry symbol j level current qpg).qty = qpg ∧
    (grid_level_submit dry symbol j level current qpg).priceOf = some level ∧
    (grid_level_submit dry symbol j level current qpg).side =
      (if level < current then "BUY" else "SELL") := by
  cases dry <;>
    simp [grid_level_submit, Submission.qty, Submission.priceOf, Submission.side]

theorem setup_grid_orders_aux_no_entry (symbol : String)
    (current qpg : ℚ) (i : ℕ) (levels : List ℚ) :
    (setup_grid_orders_aux true symbol current qpg i levels).all
      (fun s => !s.isOrderEntry) = true := by
  induction levels generalizing i with
  | nil => rfl
  | cons a rest ih =>
    unfold setup_grid_orders_aux
    by_cases h : is_skipped a current
    · simp only [if_pos h]
      exact ih (i + 1)
    · simp only [if_neg h, List.all_cons]
      rw [ih (i + 1)]
      simp [grid_level_submit, Submission.isOrderEntry]

/-! ## Claim theorems -/

/-- C1 (amended): for a `LOT_SIZE` filter with `0 ≤ minQty`, `stepSize > 0`
and an in-range quantity `minQty ≤ q ≤ maxQty`, `validate_quantity`
succeeds and returns `v = quantizeDown q d` where `d` is the number of
fractional decimal digits of `stepSize`; `v ≤ q`; `v` is an exact multiple
of `10 ^ (-d)` (not of `stepSize` itself in general); and whenever
`minQty` is itself a multiple of `10 ^ (-d)`, also `minQty ≤ v` and
`v - minQty` is a multiple of `10 ^ (-d)`. -/
theorem validate_quantity_in_range_spec (l : LotSize) (q : ℚ)
    (hmin0 : 0 ≤ l.minQty) (hstep : 0 < l.stepSize.val)
    (hlo : l.minQty ≤ q) (hhi : q ≤ l.maxQty) :
    validate_quantity (some l) q = .ok (quantizeDown q l.stepSize.exp) ∧
    quantizeDown q l.stepSize.exp ≤ q ∧
    isStepMultiple (quantizeDown q l.stepSize.exp) (1 / 10 ^ l.stepSize.exp) ∧
    (isStepMultiple l.minQty (1 / 10 ^ l.stepSize.exp) →
      l.minQty ≤ quantizeDown q l.stepSize.exp ∧
      isStepMultiple (quantizeDown q l.stepSize.exp - l.minQty) (1 / 10 ^ l.stepSize.exp)) := by
  have hq0 : 0 ≤ q := le_trans hmin0 hlo
  refine ⟨validate_quantity_ok l q hlo hhi hstep, quantizeDown_le _ hq0,
    quantizeDown_isStepMultiple _ _,
    fun hm => ⟨le_quantizeDown_of_stepMultiple hm hlo hq0, ?_⟩⟩
  obtain ⟨k1, hk1⟩ := quantizeDown_isStepMultiple q l.stepSize.exp
  obtain ⟨k2, hk2⟩ := hm
  exact ⟨k1 - k2, by rw [hk1, hk2]; push_cast; ring⟩

/-- C1 witness: concrete instance of `validate_quantity_in_range_spec`
with `minQty = 0.01`, `maxQty = 1000`, `stepSize = 0.01`, `q = 0.025`. -/
theorem validate_quantity_in_range_spec_witness :
    ((0 : ℚ) ≤ 1 / 100) ∧ (0 : ℚ) < DecLit.val ⟨1, 2⟩ ∧
    ((1 : ℚ) / 100 ≤ 1 / 40) ∧ ((1 : ℚ) / 40 ≤ 1000) ∧
    validate_quantity (some ⟨1 / 100, 1000, ⟨1, 2⟩⟩) (1 / 40) =
      .ok (quantizeDown (1 / 40) 2) :=
  ⟨by norm_num, by norm_num [DecLit.val], by norm_num, by norm_num,
    (validate_quantity_in_range_spec ⟨1 / 100, 1000, ⟨1, 2⟩⟩ (1 / 40)
      (by norm_num) (by norm_num [DecLit.val]) (by norm_num) (by norm_num)).1⟩

/-- C1 counterexample: with `minQty = 0.005`, `maxQty = 1000`,
`stepSize = 0.25` and `q = 0.005` (so `stepSize > 0` and
`minQty ≤ q ≤ maxQty`), `validate_quantity` succeeds with `v = 0`: the
returned value is below `minQty` and `v - minQty` is not an integer
multiple of `stepSize`, refuting the claim as stated. -/
theorem validate_quantity_multiple_counterexample :
    (0 : ℚ) < DecLit.val ⟨25, 2⟩ ∧
    ((1 : ℚ) / 200 ≤ 1 / 200) ∧ ((1 : ℚ) / 200 ≤ 1000) ∧
    validate_quantity (some ⟨1 / 200, 1000, ⟨25, 2⟩⟩) (1 / 200) = .ok 0 ∧
    ¬ ((1 : ℚ) / 200 ≤ 0) ∧
    ¬ isStepMultiple ((0 : ℚ) - 1 / 200) (DecLit.val ⟨25, 2⟩) := by
  refine ⟨by norm_num [DecLit.val], by norm_num, by norm_num, ?_, by norm_num, ?_⟩
  · norm_num [validate_quantity, quantizeDown, truncTowardZero, DecLit.val]
  · rintro ⟨k, hk⟩
    simp only [DecLit.val] at hk
    norm_num at hk
    have h1 : ((50 * k : ℤ) : ℚ) = -1 := by push_cast; linarith
    have h2 : (50 * k : ℤ) = -1 := by exact_mod_cast h1
    omega

/-- C2 (amended): the TWAP per-slice quantity is `totalQty / N` truncated
at `stepSize`'s decimal precision (the code's quantize, not in general a
multiple of `stepSize`); the plan records both the requested total and the
actual total `sliceQty × N`, and the actual total never exceeds the
requested total; for `totalQuantity = 0.07`, `numIntervals = 3`,
`stepSize = 0.01` the slice is `0.02` and the actual total `0.06`. -/
theorem execute_twap_plan_spec (l : LotSize) (total : ℚ) (n : ℕ)
    (hmin0 : 0 ≤ l.minQty) (hstep : 0 < l.stepSize.val) (hn : 0 < n)
    (hlo : l.minQty ≤ total / (n : ℚ)) (hhi : total / (n : ℚ) ≤ l.maxQty) :
    (execute_twap_plan (some l) total n =
      some { slice_quantity := quantizeDown (total / (n : ℚ)) l.stepSize.exp
             actual_total := quantizeDown (total / (n : ℚ)) l.stepSize.exp * (n : ℚ)
             requested_total := total
             num_intervals := n } ∧
    quantizeDown (total / (n : ℚ)) l.stepSize.exp * (n : ℚ) ≤ total) ∧
    execute_twap_plan (some ⟨0, 1000, ⟨1, 2⟩⟩) (7 / 100) 3 =
      some { slice_quantity := 2 / 100, actual_total := 6 / 100
             requested_total := 7 / 100, num_intervals := 3 } := by
  have hq0 : 0 ≤ total / (n : ℚ) := le_trans hmin0 hlo
  have hn' : (0 : ℚ) < (n : ℚ) := by exact_mod_cast hn
  refine ⟨⟨?_, ?_⟩, ?_⟩
  · simp only [execute_twap_plan]
    rw [validate_quantity_ok l _ hlo hhi hstep]
  · calc quantizeDown (total / (n : ℚ)) l.stepSize.exp * (n : ℚ)
        ≤ (total / (n : ℚ)) * (n : ℚ) :=
          mul_le_mul_of_nonneg_right (quantizeDown_le _ hq0) (le_of_lt hn')
      _ = total := div_mul_cancel₀ _ (ne_of_gt hn')
  · norm_num [execute_twap_plan, validate_quantity, quantizeDown,
      truncTowardZero, DecLit.val]

/-- C2 witness: concrete instance of `execute_twap_plan_spec` at
`totalQuantity = 0.07`, `numIntervals = 3`, `stepSize = 0.01`. -/
theorem execute_twap_plan_spec_witness :
    ((0 : ℚ) ≤ 0) ∧ (0 : ℚ) < DecLit.val ⟨1, 2⟩ ∧ 0 < 3 ∧
    ((0 : ℚ) ≤ 7 / 100 / ((3 : ℕ) : ℚ)) ∧ (7 / 100 / ((3 : ℕ) : ℚ) ≤ (1000 : ℚ)) ∧
    execute_twap_plan (some ⟨0, 1000, ⟨1, 2⟩⟩) (7 / 100) 3 =
      some { slice_quantity := 2 / 100, actual_total := 6 / 100
             requested_total := 7 / 100, num_intervals := 3 } :=
  ⟨by norm_num, by norm_num [DecLit.val], by norm_num, by push_cast; norm_num,
    by push_cast; norm_num,
    (execute_twap_plan_spec ⟨0, 1000, ⟨1, 2⟩⟩ (7 / 100) 3 (by norm_num)
      (by norm_num [DecLit.val]) (by norm_num) (by push_cast; norm_num)
      (by push_cast; norm_num)).2⟩

/-- C2 counterexample: with `stepSize = 0.25`, `totalQuantity = 0.9`,
`numIntervals = 3`, the code's slice is `0.3` (truncation at two decimal
places), while `round_down(totalQty / N, stepSize)` — the greatest
multiple of `stepSize` not above the raw slice — is `0.25`, refuting the
claimed per-slice formula. -/
theorem twap_round_down_counterexample :
    execute_twap_plan (some ⟨0, 1000, ⟨25, 2⟩⟩) (9 / 10) 3 =
      some { slice_quantity := 3 / 10, actual_total := 9 / 10
             requested_total := 9 / 10, num_intervals := 3 } ∧
    roundDownToMultiple (9 / 10 / 3) (DecLit.val ⟨25, 2⟩) = 1 / 4 ∧
    (3 : ℚ) / 10 ≠ 1 / 4 := by
  refine ⟨?_, ?_, by norm_num⟩
  · norm_num [execute_twap_plan, validate_quantity, quantizeDown,
      truncTowardZero, DecLit.val]
  · norm_num [roundDownToMultiple, DecLit.val]

/-- C3: grid level generation returns exactly `numGrids + 1` evenly
spaced levels, `level[i] = lower + i * (upper - lower) / numGrids`, and
for `lower = 100`, `upper = 200`, `numGrids = 4` the result is exactly
`[100, 125, 150, 175, 200]`. -/
theorem calculate_grid_levels_spec (lower upper : ℚ) (num : ℕ) (_hnum : 0 < num) :
    (calculate_grid_levels lower upper num).length = num + 1 ∧
    (∀ i : ℕ, i < num + 1 →
      (calculate_grid_levels lower upper num)[i]? =
        some (lower + (i : ℚ) * (upper - lower) / (num : ℚ))) ∧
    calculate_grid_levels 100 200 4 = [100, 125, 150, 175, 200] := by
  refine ⟨?_, ?_, ?_⟩
  · unfold calculate_grid_levels
    rw [List.length_map, List.length_range]
  · intro i hi
    unfold calculate_grid_levels
    rw [List.getElem?_map]
    simp [List.getElem?_range, hi, mul_div_assoc]
  · norm_num [calculate_grid_levels, List.range_succ]

/-- C3 witness: concrete instance of `calculate_grid_levels_spec` at
`lower = 100`, `upper = 200`, `numGrids = 4`. -/
theorem calculate_grid_levels_spec_witness :
    0 < 4 ∧ (calculate_grid_levels 100 200 4).length = 4 + 1 ∧
    calculate_grid_levels 100 200 4 = [100, 125, 150, 175, 200] :=
  ⟨by norm_num, (calculate_grid_levels_spec 100 200 4 (by norm_num)).1,
    (calculate_grid_levels_spec 100 200 4 (by norm_num)).2.2⟩

/-- C4: `validate_notional` computes `notional = qty * price` and fails
on, in order: the exchange minimum notional, the safety ceiling
`MAX_ORDER_VALUE_USD`, the safety floor `MIN_ORDER_VALUE_USD`; with
quantity 0.001, price 50000, minNotional 10 it passes, and with price
20,000,000 it fails on the safety ceiling, not the exchange minimum. -/
theorem validate_notional_spec (m q p : ℚ) :
    ((validate_notional m q p = .error .belowExchangeMin ↔ q * p < m) ∧
    (validate_notional m q p = .error .aboveSafetyCeiling ↔
      m ≤ q * p ∧ MAX_ORDER_VALUE_USD < q * p) ∧
    (validate_notional m q p = .error .belowSafetyFloor ↔
      m ≤ q * p ∧ q * p ≤ MAX_ORDER_VALUE_USD ∧ q * p < MIN_ORDER_VALUE_USD) ∧
    (validate_notional m q p = .ok () ↔
      m ≤ q * p ∧ q * p ≤ MAX_ORDER_VALUE_USD ∧ MIN_ORDER_VALUE_USD ≤ q * p)) ∧
    validate_notional 10 (1 / 1000) 50000 = .ok () ∧
    validate_notional 10 (1 / 1000) 20000000 = .error .aboveSafetyCeiling := by
  refine ⟨?_, ?_, ?_⟩
  · simp only [validate_notional]
    split_ifs with h1 h2 h3 <;> simp_all [not_lt, le_of_lt]
  · norm_num [validate_notional, MAX_ORDER_VALUE_USD, MIN_ORDER_VALUE_USD]
  · norm_num [validate_notional, MAX_ORDER_VALUE_USD, MIN_ORDER_VALUE_USD]

/-- C4 witness: concrete instance of `validate_notional_spec`. -/
theorem validate_notional_spec_witness :
    validate_notional 10 (1 / 1000) 50000 = .ok () ∧
    validate_notional 10 (1 / 1000) 20000000 = .error .aboveSafetyCeiling :=
  ⟨(validate_notional_spec 10 (1 / 1000) 50000).2.1,
    (validate_notional_spec 10 (1 / 1000) 20000000).2.2⟩

/-- C5: a quantity below `minQty` or above `maxQty` is rejected on the
raw input — `belowMin` is reported before any rounding, `aboveMax` next —
and the error result carries no normalized quantity. -/
theorem validate_quantity_out_of_bounds (l : LotSize) (q : ℚ) :
    (q < l.minQty → validate_quantity (some l) q = .error .belowMin) ∧
    (l.minQty ≤ q → l.maxQty < q →
      validate_quantity (some l) q = .error .aboveMax) := by
  constructor
  · intro h
    simp [validate_quantity, h]
  · intro h1 h2
    simp [validate_quantity, not_lt.mpr h1, h2]

/-- C5 witness: concrete instances of `validate_quantity_out_of_bounds`
with the filter `minQty = 0.01`, `maxQty = 10`, `stepSize = 0.01`. -/
theorem validate_quantity_out_of_bounds_witness :
    ((1 : ℚ) / 200 < 1 / 100) ∧
    validate_quantity (some ⟨1 / 100, 10, ⟨1, 2⟩⟩) (1 / 200) = .error .belowMin ∧
    ((1 : ℚ) / 100 ≤ 20) ∧ ((10 : ℚ) < 20) ∧
    validate_quantity (some ⟨1 / 100, 10, ⟨1, 2⟩⟩) 20 = .error .aboveMax :=
  ⟨by norm_num,
    (validate_quantity_out_of_bounds ⟨1 / 100, 10, ⟨1, 2⟩⟩ (1 / 200)).1 (by norm_num),
    by norm_num, by norm_num,
    (validate_quantity_out_of_bounds ⟨1 / 100, 10, ⟨1, 2⟩⟩ 20).2
      (by norm_num) (by norm_num)⟩

/-- C6: rounding is idempotent — an in-range quantity already equal to
its rounded form is returned unchanged by `validate_quantity`, and
likewise an in-range already-rounded price by `validate_price`. -/
theorem validate_round_idempotent (l : LotSize) (f : PriceFilter) (v p : ℚ)
    (hlq : l.minQty ≤ v) (hhq : v ≤ l.maxQty)
    (hv : quantizeDown v l.stepSize.exp = v)
    (hlp : f.minPrice ≤ p) (hhp : p ≤ f.maxPrice)
    (hp : quantizeDown p f.tickSize.exp = p) :
    validate_quantity (some l) v = .ok v ∧ validate_price (some f) p = .ok p := by
  constructor
  · by_cases hs : 0 < l.stepSize.val
    · rw [validate_quantity_ok l v hlq hhq hs, hv]
    · simp [validate_quantity, not_lt.mpr hlq, not_lt.mpr hhq, hs]
  · by_cases hs : 0 < f.tickSize.val
    · simp [validate_price, not_lt.mpr hlp, not_lt.mpr hhp, hs, hp]
    · simp [validate_price, not_lt.mpr hlp, not_lt.mpr hhp, hs]

/-- C6 witness: concrete instance of `validate_round_idempotent` with
`v = 0.5` on step `0.01` and `p = 0.3` on tick `0.1`. -/
theorem validate_round_idempotent_witness :
    ((0 : ℚ) ≤ 1 / 2) ∧ ((1 : ℚ) / 2 ≤ 100) ∧ quantizeDown (1 / 2) 2 = 1 / 2 ∧
    ((0 : ℚ) ≤ 3 / 10) ∧ ((3 : ℚ) / 10 ≤ 100000) ∧ quantizeDown (3 / 10) 1 = 3 / 10 ∧
    validate_quantity (some ⟨0, 100, ⟨1, 2⟩⟩) (1 / 2) = .ok (1 / 2) ∧
    validate_price (some ⟨0, 100000, ⟨1, 1⟩⟩) (3 / 10) = .ok (3 / 10) := by
  have h := validate_round_idempotent ⟨0, 100, ⟨1, 2⟩⟩ ⟨0, 100000, ⟨1, 1⟩⟩
    (1 / 2) (3 / 10) (by norm_num) (by norm_num)
    (by norm_num [quantizeDown, truncTowardZero]) (by norm_num) (by norm_num)
    (by norm_num [quantizeDown, truncTowardZero])
  exact ⟨by norm_num, by norm_num, by norm_num [quantizeDown, truncTowardZero],
    by norm_num, by norm_num, by norm_num [quantizeDown, truncTowardZero],
    h.1, h.2⟩

/-- C7 (amended): every dry-run submission path issues no order-entry
network call and returns a synthesized record with a deterministic
sentinel order ID — `9999999` for market and limit orders, `9999000 +
sliceNumber` for TWAP slices, `8888000 + levelIndex` for grid levels
(not one single fixed ID) — and a deterministic status: FILLED for
market orders and TWAP slices, NEW for resting limit and grid orders. -/
theorem dry_run_submissions_spec (symbol side tif : String) (q p cp qpg : ℚ)
    (lp : Option ℚ) (n i : ℕ) (level current : ℚ) (levels : List ℚ) :
    (market_submit true symbol side q cp).isOrderEntry = false ∧
    (market_submit true symbol side q cp).orderId? = some 9999999 ∧
    (market_submit true symbol side q cp).statusOf = some "FILLED" ∧
    (limit_submit true symbol side q p tif).isOrderEntry = false ∧
    (limit_submit true symbol side q p tif).orderId? = some 9999999 ∧
    (limit_submit true symbol side q p tif).statusOf = some "NEW" ∧
    (twap_slice_submit true symbol side lp q cp n).isOrderEntry = false ∧
    (twap_slice_submit true symbol side lp q cp n).orderId? = some (9999000 + n) ∧
    (twap_slice_submit true symbol side lp q cp n).statusOf = some "FILLED" ∧
    (grid_level_submit true symbol i level current qpg).isOrderEntry = false ∧
    (grid_level_submit true symbol i level current qpg).orderId? = some (8888000 + i) ∧
    (grid_level_submit true symbol i level current qpg).statusOf = some "NEW" ∧
    (setup_grid_orders true symbol levels current qpg).all
      (fun s => !s.isOrderEntry) = true := by
  refine ⟨?_, ?_, ?_, ?_, ?_, ?_, ?_, ?_, ?_, ?_, ?_, ?_,
    setup_grid_orders_aux_no_entry symbol current qpg 1 levels⟩ <;>
    simp [market_submit, limit_submit, twap_slice_submit, grid_level_submit,
      Submission.isOrderEntry, Submission.orderId?, Submission.statusOf]

/-- C7 counterexample: within a single dry TWAP run the synthesized order
IDs differ from slice to slice (9999001 vs 9999002) and from the market
sentinel 9999999, so there is no one fixed sentinel order ID. -/
theorem twap_sentinel_not_fixed_counterexample :
    (twap_slice_submit true "BTCUSDT" "BUY" none (1 / 100) 50000 1).orderId? =
      some 9999001 ∧
    (twap_slice_submit true "BTCUSDT" "BUY" none (1 / 100) 50000 2).orderId? =
      some 9999002 ∧
    (9999001 : ℕ) ≠ 9999002 ∧
    (market_submit true "BTCUSDT" "BUY" (1 / 100) 50000).orderId? = some 9999999 ∧
    (9999001 : ℕ) ≠ 9999999 := by
  refine ⟨?_, ?_, by norm_num, ?_, by norm_num⟩ <;>
    simp [twap_slice_submit, market_submit, Submission.orderId?]

/-- C8 (amended): at grid setup each level below the current price is
classified BUY and each level above it SELL; every level within 0.1% of
the current price (`|level - current| / current < 0.001`) is skipped —
possibly several levels, not only the nearest one — and exactly one
resting limit order is placed per non-skipped level, carrying that
level's price, the per-grid quantity, and the BUY/SELL side matching its
position relative to the current price. -/
theorem setup_grid_orders_spec (dry : Bool) (symbol : String)
    (levels : List ℚ) (current qpg : ℚ) :
    (setup_grid_orders dry symbol levels current qpg).length =
      (levels.filter (fun l => !is_skipped l current)).length ∧
    (∀ s ∈ setup_grid_orders dry symbol levels current qpg,
      s.qty = qpg ∧ ∃ level ∈ levels, is_skipped level current = false ∧
        s.priceOf = some level ∧
        ((level < current ∧ s.side = "BUY") ∨
          (current < level ∧ s.side = "SELL"))) := by
  constructor
  · exact setup_grid_orders_aux_length dry symbol current qpg 1 levels
  · intro s hs
    obtain ⟨level, hmem, j, hsk, rfl⟩ :=
      setup_grid_orders_aux_mem dry symbol current qpg 1 levels s hs
    obtain ⟨hqty, hprice, hside⟩ :=
      grid_level_submit_fields dry symbol j level current qpg
    refine ⟨hqty, level, hmem, hsk, hprice, ?_⟩
    by_cases hlt : level < current
    · exact Or.inl ⟨hlt, by rw [hside, if_pos hlt]⟩
    · refine Or.inr ⟨?_, by rw [hside, if_neg hlt]⟩
      rcases lt_or_eq_of_le (not_lt.mp hlt) with h | h
      · exact h
      · rw [← h, level_eq_current_skipped] at hsk
        exact absurd hsk (by simp)

/-- C8 witness: concrete instance of `setup_grid_orders_spec` with levels
90 and 110 around a current price of 100 — both levels survive the skip
test and get one order each. -/
theorem setup_grid_orders_spec_witness :
    (setup_grid_orders true "BTCUSDT" [90, 110] 100 1).length =
      (([90, 110] : List ℚ).filter (fun l => !is_skipped l 100)).length ∧
    (∀ s ∈ setup_grid_orders true "BTCUSDT" [90, 110] 100 1,
      s.qty = 1 ∧ ∃ level ∈ ([90, 110] : List ℚ), is_skipped level 100 = false ∧
        s.priceOf = some level ∧
        ((level < 100 ∧ s.side = "BUY") ∨ ((100 : ℚ) < level ∧ s.side = "SELL"))) :=
  setup_grid_orders_spec true "BTCUSDT" [90, 110] 100 1

/-- C8 counterexample: with grid levels `[100, 100.05, 100.1]` (generated
for lower 100, upper 100.1, 2 grids) and current price 100.02, all three
levels lie within 0.1% of the current price and all are skipped — no
order at all is placed — although 100.05 and 100.1 are not the level
nearest the current price (100 is nearer), refuting "only the level
nearest the current price is skipped". -/
theorem grid_skip_counterexample :
    calculate_grid_levels 100 (1001 / 10) 2 = [100, 2001 / 20, 1001 / 10] ∧
    setup_grid_orders true "BTCUSDT" [100, 2001 / 20, 1001 / 10] (10002 / 100) 1 = [] ∧
    is_skipped (1001 / 10) (10002 / 100) = true ∧
    is_skipped (2001 / 20) (10002 / 100) = true ∧
    |(1001 : ℚ) / 10 - 10002 / 100| > |(100 : ℚ) - 10002 / 100| ∧
    |(2001 : ℚ) / 20 - 10002 / 100| > |(100 : ℚ) - 10002 / 100| := by
  refine ⟨?_, ?_, ?_, ?_, ?_, ?_⟩
  · norm_num [calculate_grid_levels, List.range_succ]
  · norm_num [setup_grid_orders, setup_grid_orders_aux, is_skipped, div_lt_iff₀, abs_lt]
  · norm_num [is_skipped, div_lt_iff₀, abs_lt]
  · norm_num [is_skipped, div_lt_iff₀, abs_lt]
  · rw [abs_of_nonneg (show (0 : ℚ) ≤ 1001 / 10 - 10002 / 100 by norm_num),
      abs_of_nonpos (show (100 : ℚ) - 10002 / 100 ≤ 0 by norm_num)]
    norm_num
  · rw [abs_of_nonneg (show (0 : ℚ) ≤ 2001 / 20 - 10002 / 100 by norm_num),
      abs_of_nonpos (show (100 : ℚ) - 10002 / 100 ≤ 0 by norm_num)]
    norm_num

/-- C9: the grid strategy's `total_profit` is 0 after construction and is
preserved by every setup and fill/replacement operation, so the periodic
status update and the final statistics always report a profit of exactly
0. -/
theorem grid_total_profit_zero (ops : List GridOp) :
    grid_init.total_profit = 0 ∧
    (grid_run ops).total_profit = 0 ∧
    monitor_status_profit (grid_run ops) = 0 ∧
    final_stats_profit (grid_run ops) = 0 := by
  have h : (grid_run ops).total_profit = 0 := by
    unfold grid_run
    rw [grid_foldl_profit]
    rfl
  exact ⟨rfl, h, h, h⟩

/-- C9 witness: a concrete run — setup with four levels followed by a
fill with a replacement — still reports zero profit, by
`grid_total_profit_zero`. -/
theorem grid_total_profit_zero_witness :
    (grid_run [.setup 100 200 4 [], .fill
      { orderId := 1, symbol := "BTCUSDT", side := "BUY", type := "LIMIT"
        origQty := 1, price := some 100, avgPrice := none, status := "NEW"
        timeInForce := some "GTC" }
      { orderId := 1, symbol := "BTCUSDT", side := "BUY", type := "LIMIT"
        origQty := 1, price := some 100, avgPrice := some 100, status := "FILLED"
        timeInForce := some "GTC" } none]).total_profit = 0 :=
  (grid_total_profit_zero _).2.1

/-- C10: with no `LOT_SIZE` filter the defaults `minQty = 0`,
`maxQty = ∞`, `stepSize = 0` apply: every quantity `q ≥ 0` is accepted
and returned unchanged with no rounding, and any `q < 0` is rejected as
below the minimum. -/
theorem validate_quantity_no_lot_filter (q : ℚ) :
    (0 ≤ q → validate_quantity none q = .ok q) ∧
    (q < 0 → validate_quantity none q = .error .belowMin) := by
  constructor
  · intro h
    simp [validate_quantity, not_lt.mpr h]
  · intro h
    simp [validate_quantity, h]

/-- C10 witness: concrete instances of `validate_quantity_no_lot_filter`
at `q = 5` and `q = -1`. -/
theorem validate_quantity_no_lot_filter_witness :
    validate_quantity none 5 = .ok 5 ∧
    validate_quantity none (-1) = .error .belowMin :=
  ⟨(validate_quantity_no_lot_filter 5).1 (by norm_num),
    (validate_quantity_no_lot_filter (-1)).2 (by norm_num)⟩

end BinanceBot
